import Mathlib

/-!
Shallow embedding of the authentication and task-ownership core of the
task-manager-api repository (Express + Mongoose tutorial project).

Source of the embedded code: the code excerpts in src/TUTORIAL.md
(userSchema pre-save hook, generateAuthToken, findByCredentials, the
signup and login routes, the POST /tasks handler with its spread of the
request body, and the completed-filter of GET /tasks).  Parts of the
repository whose implementation files are not present (the auth
middleware body, the session-revocation routes, the by-id task handlers,
the toJSON serializer, and the bcrypt/jwt library primitives) are
modelled from the specification; each such definition carries a doc
comment saying so.

Machine integers do not arise: ids, salts and timestamps are Nat,
strings are Lean String.
-/

namespace TaskManager

abbrev UserId := Nat
abbrev TaskId := Nat

/-- The User.password field of the Mongoose document.  Before the
pre-save hook runs it holds the submitted plaintext; afterwards it holds
a bcrypt digest.  The constructor distinction is exactly Mongoose's
`isModified('password')` test: a still-plain password is a modified one. -/
inductive Password where
  | plain (p : String)
  | hashed (salt : Nat) (p : String)
deriving DecidableEq

/-- Modelled from the spec: the bcryptjs `hash` primitive (library
dependency, no source in the repository).  Spec 4.1: a one-way salted
transform; the per-call random salt is rendered as an explicit salt
argument, so two calls with distinct salts give distinct digests. -/
def bcryptHash (p : String) (salt : Nat) : Password :=
  Password.hashed salt p

/-- Modelled from the spec: the bcryptjs `compare` primitive.  Spec 4.1:
true iff the digest was produced from the plaintext by `hash`; on a
malformed digest (a non-digest value) it returns false, never raises. -/
def bcryptCompare (p : String) (d : Password) : Bool :=
  match d with
  | Password.hashed _ q => q == p
  | Password.plain _ => false

/-- A signed JWT as minted by `jwt.sign({ _id: this._id }, JWT_SECRET)`:
it carries the subject id, an issued-at timestamp, and a signature that
only the holder of the process-wide secret can produce (modelled as the
secret itself, symmetric signing). -/
structure Token where
  sub : UserId
  iat : Nat
  sig : String
deriving DecidableEq

/-- The `jwt.sign` call of generateAuthToken (src/TUTORIAL.md 128-131). -/
def jwtSign (uid : UserId) (secret : String) (iat : Nat) : Token :=
  { sub := uid, iat := iat, sig := secret }

/-- The `jwt.verify(token, JWT_SECRET)` check used by the auth
middleware: accepts iff the signature matches the process secret, and
then yields the embedded subject id. -/
def jwtVerify (t : Token) (secret : String) : Option UserId :=
  if t.sig == secret then some t.sub else none

/-- A User document: id, name, email, password field, and the `tokens`
array of active session tokens (the spec's activeTokens). -/
structure User where
  id : UserId
  name : String
  email : String
  password : Password
  tokens : List Token
deriving DecidableEq

/-- A Task document (src/TUTORIAL.md 152-157): description, completed
flag, and an owner reference to a User id. -/
structure Task where
  id : TaskId
  description : String
  completed : Bool
  owner : UserId
deriving DecidableEq

/-- The database state: the users and tasks collections. -/
structure Db where
  users : List User
  tasks : List Task
deriving DecidableEq

/-- The userSchema pre-save hook (src/TUTORIAL.md 110-115): if the
password path is modified (still plaintext), replace it with
`bcrypt.hash(password, 8)`; otherwise leave the document unchanged. -/
def presave (u : User) (salt : Nat) : User :=
  match u.password with
  | Password.plain p => { u with password := bcryptHash p salt }
  | Password.hashed _ _ => u

/-- generateAuthToken (src/TUTORIAL.md 128-131): signs `{ _id: this._id }`
with the process secret and returns the token.  As written in the source
it does not touch the document's tokens array. -/
def generateAuthToken (u : User) (secret : String) (iat : Nat) : Token :=
  jwtSign u.id secret iat

/-- The `User.findOne({ email })` query of findByCredentials. -/
def findOneByEmail (users : List User) (email : String) : Option User :=
  users.find? (fun u => u.email == email)

/-- A thrown JavaScript error: reading `.password` of a null query
result throws a TypeError. -/
inductive JsError where
  | typeError
deriving DecidableEq

/-- findByCredentials (src/TUTORIAL.md 139-143), exactly as written:
`findOne({ email })`, then `bcrypt.compare(password, user.password)`
(a TypeError when the user is null), then `return user` regardless of
the comparison result, which the source computes and ignores. -/
def findByCredentials (users : List User) (email pw : String) :
    Except JsError User :=
  match findOneByEmail users email with
  | none => Except.error JsError.typeError
  | some user =>
    let _isMatch := bcryptCompare pw user.password
    Except.ok user

/-- The `{ user, token }` payload sent by the login route. -/
structure LoginResponse where
  user : User
  token : Token
deriving DecidableEq

/-- The login route (src/TUTORIAL.md 206-210): findByCredentials, then
generateAuthToken, then send `{ user, token }`.  As written it performs
no write to the database. -/
def loginRoute (db : Db) (email pw : String) (secret : String) (iat : Nat) :
    Except JsError LoginResponse :=
  match findByCredentials db.users email pw with
  | Except.error e => Except.error e
  | Except.ok user =>
    let token := generateAuthToken user secret iat
    Except.ok { user := user, token := token }

/-- The signup request body `{ name, email, password }`. -/
structure SignupBody where
  name : String
  email : String
  password : String
deriving DecidableEq

/-- The result of the signup route: HTTP status, the saved user, the
minted token, and the database after the save. -/
structure SignupResult where
  status : Nat
  user : User
  token : Token
  db : Db
deriving DecidableEq

/-- The signup route (src/TUTORIAL.md 189-194): `new User(req.body)`,
`user.save()` (which runs the pre-save hook and persists the document),
`generateAuthToken()`, then status 201 with `{ user, token }`.  As
written it does not append the minted token to the tokens array. -/
def signupRoute (db : Db) (body : SignupBody) (newId : UserId) (salt : Nat)
    (secret : String) (iat : Nat) : SignupResult :=
  let user0 : User :=
    { id := newId, name := body.name, email := body.email
      password := Password.plain body.password, tokens := [] }
  let user := presave user0 salt
  let token := generateAuthToken user secret iat
  { status := 201, user := user, token := token
    db := { db with users := db.users ++ [user] } }

/-- Modelled from the spec: the User toJSON serializer
(src/models/User.js is not in the sources; src/TUTORIAL.md line 292 only
mentions that it hides the password).  Spec 3: passwordHash and
activeTokens are never serialized to external responses, so the public
shape carries only id, name and email. -/
structure PublicUser where
  id : UserId
  name : String
  email : String
deriving DecidableEq

/-- Serialization of a User for an external response (see PublicUser). -/
def toJSON (u : User) : PublicUser :=
  { id := u.id, name := u.name, email := u.email }

/-- Modelled from the spec: SessionStore recordSession (spec 4.3) —
append the token to the user's active list.  The repository's route that
performs the append is not among the sources. -/
def recordSession (u : User) (t : Token) : User :=
  { u with tokens := u.tokens ++ [t] }

/-- Modelled from the spec: SessionStore revokeSession (spec 4.3 and the
logout route of README.md) — remove the single matching token, a no-op
when it is absent. -/
def revokeSession (u : User) (t : Token) : User :=
  { u with tokens := u.tokens.erase t }

/-- Modelled from the spec: SessionStore revokeAll (spec 4.3, logout-all)
— clear the active list. -/
def revokeAll (u : User) : User :=
  { u with tokens := [] }

/-- The user lookup of the auth middleware: find the user whose id is
the subject embedded in the token. -/
def findById (users : List User) (uid : UserId) : Option User :=
  users.find? (fun u => u.id == uid)

/-- Outcome of the per-request Authenticator. -/
inductive AuthResult where
  | rejected
  | identified (user : User) (token : Token)
deriving DecidableEq

/-- Modelled from the spec: the auth middleware body
(src/middleware/auth.js is not in the sources; src/TUTORIAL.md 165-183
gives the flow in prose only).  Spec 4.4: extract the bearer token
(absent credential rejects), verify the signature against the process
secret, look up the user by the embedded identity, confirm the exact
token is present in that user's active list, and only then identify the
request with that user and token; every failing step rejects. -/
def authenticate (users : List User) (cred : Option Token) (secret : String) :
    AuthResult :=
  match cred with
  | none => AuthResult.rejected
  | some tok =>
    match jwtVerify tok secret with
    | none => AuthResult.rejected
    | some uid =>
      match findById users uid with
      | none => AuthResult.rejected
      | some user =>
        if tok ∈ user.tokens then AuthResult.identified user tok
        else AuthResult.rejected

/-- A JSON value in a request body. -/
inductive JsValue where
  | str (s : String)
  | num (n : Nat)
  | boolean (b : Bool)
deriving DecidableEq

/-- A JavaScript object literal as an ordered field list; a later entry
for the same key overrides an earlier one, as in object spread. -/
abbrev JsObj := List (String × JsValue)

/-- Property read on a JavaScript object literal: the last binding of
the key wins, which is the semantics of `{ ...a, k: v }`. -/
def objGet (o : JsObj) (k : String) : Option JsValue :=
  (o.reverse.find? (fun kv => kv.1 == k)).map (fun kv => kv.2)

/-- The object literal of the POST /tasks handler
(src/TUTORIAL.md 224-227): `{ ...req.body, owner: req.user._id }` — the
whole client body spread first, then the owner binding appended after
it. -/
def newTaskFields (body : JsObj) (uid : UserId) : JsObj :=
  body ++ [("owner", JsValue.num uid)]

/-- Building the Task document from the constructor argument object:
each schema path reads the (last-wins) binding of its key. -/
def taskFromFields (fields : JsObj) (fresh : TaskId) : Task :=
  { id := fresh
    description :=
      match objGet fields "description" with
      | some (JsValue.str s) => s
      | _ => ""
    completed :=
      match objGet fields "completed" with
      | some (JsValue.boolean b) => b
      | _ => false
    owner :=
      match objGet fields "owner" with
      | some (JsValue.num n) => n
      | _ => 0 }

/-- The POST /tasks handler body (src/TUTORIAL.md 223-229): build the
task from the spread body with owner set from the request identity, save
it. -/
def createTaskRoute (tasks : List Task) (body : JsObj) (uid : UserId)
    (fresh : TaskId) : Task × List Task :=
  let task := taskFromFields (newTaskFields body uid) fresh
  (task, tasks ++ [task])

/-- The completed-filter of GET /tasks (src/TUTORIAL.md 245-247): when
the query parameter is present and truthy (a nonempty string), require
`completed === (value === 'true')`; otherwise no constraint. -/
def completedMatch (q : Option String) : Option Bool :=
  match q with
  | some s => if s == "" then none else some (s == "true")
  | none => none

/-- Modelled from the spec: the owner scoping of the GET /tasks listing
(the handler body is not among the sources beyond its completed-filter).
Spec 4.5: listing operations are implicitly filtered to
owner == identified_user with no override; the completed constraint from
the source is applied on top. -/
def listTasks (tasks : List Task) (uid : UserId) (q : Option String) :
    List Task :=
  tasks.filter (fun t =>
    t.owner == uid &&
      match completedMatch q with
      | some b => t.completed == b
      | none => true)

/-- Modelled from the spec: the lookup predicate shared by the by-id
task handlers (their bodies are not among the sources).  Spec 4.5: the
effective predicate is always id == requested AND owner ==
identified_user, never the id alone. -/
def findTaskScoped (tasks : List Task) (tid : TaskId) (uid : UserId) :
    Option Task :=
  tasks.find? (fun t => t.id == tid && t.owner == uid)

/-- An HTTP response of the task routes. -/
inductive Response where
  | unauthorized
  | created (t : Task)
  | okTask (t : Task)
  | okList (ts : List Task)
  | notFound
deriving DecidableEq

/-- The PATCH /tasks/:id update body: optional new description and
completed values. -/
structure TaskUpdate where
  description : Option String
  completed : Option Bool
deriving DecidableEq

/-- Applying a PATCH body to a task document. -/
def applyUpdate (t : Task) (u : TaskUpdate) : Task :=
  { t with
    description := u.description.getD t.description
    completed := u.completed.getD t.completed }

/-- Modelled from the spec: GET /tasks/:id — owner-scoped lookup, 404
when no owned task matches. -/
def getTaskRoute (tasks : List Task) (tid : TaskId) (uid : UserId) :
    Response :=
  match findTaskScoped tasks tid uid with
  | none => Response.notFound
  | some t => Response.okTask t

/-- Modelled from the spec: PATCH /tasks/:id — owner-scoped conditional
update, 404 (state unchanged) when no owned task matches. -/
def patchTaskRoute (tasks : List Task) (tid : TaskId) (uid : UserId)
    (upd : TaskUpdate) : Response × List Task :=
  match findTaskScoped tasks tid uid with
  | none => (Response.notFound, tasks)
  | some t =>
    let t2 := applyUpdate t upd
    (Response.okTask t2,
      tasks.map (fun x => if x.id == tid && x.owner == uid then t2 else x))

/-- Modelled from the spec: DELETE /tasks/:id — owner-scoped conditional
delete, 404 (state unchanged) when no owned task matches. -/
def deleteTaskRoute (tasks : List Task) (tid : TaskId) (uid : UserId) :
    Response × List Task :=
  match findTaskScoped tasks tid uid with
  | none => (Response.notFound, tasks)
  | some t =>
    (Response.okTask t,
      tasks.filter (fun x => !(x.id == tid && x.owner == uid)))

/-- A Task CRUD request, after JSON parsing. -/
inductive TaskReq where
  | create (body : JsObj)
  | list (q : Option String)
  | getOne (tid : TaskId)
  | patchOne (tid : TaskId) (upd : TaskUpdate)
  | deleteOne (tid : TaskId)

/-- A Task route with the auth middleware in front
(src/TUTORIAL.md 496-502: every task route is registered with `auth`
before its handler): a rejected authentication answers unauthorized with
the state untouched; an identified request dispatches to the handler
with the resolved user's id. -/
def handleTaskRequest (st : Db) (cred : Option Token) (secret : String)
    (fresh : TaskId) (req : TaskReq) : Response × Db :=
  match authenticate st.users cred secret with
  | AuthResult.rejected => (Response.unauthorized, st)
  | AuthResult.identified user _tok =>
    match req with
    | TaskReq.create body =>
      let r := createTaskRoute st.tasks body user.id fresh
      (Response.created r.1, { st with tasks := r.2 })
    | TaskReq.list q => (Response.okList (listTasks st.tasks user.id q), st)
    | TaskReq.getOne tid => (getTaskRoute st.tasks tid user.id, st)
    | TaskReq.patchOne tid upd =>
      let r := patchTaskRoute st.tasks tid user.id upd
      (r.1, { st with tasks := r.2 })
    | TaskReq.deleteOne tid =>
      let r := deleteTaskRoute st.tasks tid user.id
      (r.1, { st with tasks := r.2 })

/-! ## Concrete demonstration values -/

/-- Ann's stored record after signup: password hashed (salt 5), no
active token recorded (as the source's signup leaves it). -/
def annHashed : User :=
  { id := 1, name := "Ann", email := "ann@x.com"
    password := bcryptHash "secret123" 5, tokens := [] }

/-- The signup body of the spec's signup scenario. -/
def annBody : SignupBody :=
  { name := "Ann", email := "ann@x.com", password := "secret123" }

/-- An empty database. -/
def emptyDb : Db := { users := [], tasks := [] }

/-- A database holding only Ann's stored record. -/
def annDb : Db := { users := [annHashed], tasks := [] }

/-- A token signed for Ann with the process secret. -/
def demoToken : Token := { sub := 1, iat := 0, sig := "topsecret" }

/-- Ann's record with demoToken recorded as an active session. -/
def annLoggedIn : User := { annHashed with tokens := [demoToken] }

/-- A task of Ann's. -/
def demoTask : Task :=
  { id := 10, description := "Learn Express", completed := false, owner := 1 }

/-! ## Helper lemmas -/

/-- The owner-scoped lookup finds nothing when every task with the
requested id has a different owner. -/
theorem findTaskScoped_eq_none (tasks : List Task) (tid : TaskId)
    (uid : UserId) (h : ∀ t ∈ tasks, t.id = tid → t.owner ≠ uid) :
    findTaskScoped tasks tid uid = none := by
  unfold findTaskScoped
  cases hfind : tasks.find? (fun t => t.id == tid && t.owner == uid) with
  | none => rfl
  | some x =>
    have hx := List.mem_of_find?_eq_some hfind
    have hp := List.find?_some hfind
    simp only [Bool.and_eq_true, beq_iff_eq] at hp
    exact absurd hp.2 (h x hx hp.1)

/-- Reading a key from an object whose last binding is that key yields
that binding: the semantics of spreading a body and then writing the
key. -/
theorem objGet_append_last (body : JsObj) (k : String) (v : JsValue) :
    objGet (body ++ [(k, v)]) k = some v := by
  unfold objGet
  rw [List.reverse_append]
  simp [List.find?_cons]

/-! ## Claim theorems -/

/-- C3: for all plaintexts p, verify(p, hash(p)) is true, and two hash
calls with distinct salts (the model of the per-call random salt)
produce different digests that both verify against p. -/
theorem bcrypt_hash_verify_roundtrip (p : String) (s1 s2 : Nat)
    (hs : s1 ≠ s2) :
    bcryptCompare p (bcryptHash p s1) = true ∧
    bcryptCompare p (bcryptHash p s2) = true ∧
    bcryptHash p s1 ≠ bcryptHash p s2 := by
  refine ⟨by simp [bcryptCompare, bcryptHash], by simp [bcryptCompare, bcryptHash], ?_⟩
  simpa [bcryptHash] using hs

/-- Witness for C3 at p = "secret123", salts 0 and 1. -/
theorem bcrypt_hash_verify_roundtrip_witness :
    bcryptCompare "secret123" (bcryptHash "secret123" 0) = true ∧
    bcryptCompare "secret123" (bcryptHash "secret123" 1) = true ∧
    bcryptHash "secret123" 0 ≠ bcryptHash "secret123" 1 :=
  bcrypt_hash_verify_roundtrip "secret123" 0 1 (by decide)

/-- C10: the stored task's owner is the authenticated user's id for
every request body, even one that itself binds owner: the handler
spreads the client body first and the owner binding appended after it
wins on lookup. -/
theorem create_task_owner_overwritten (tasks : List Task) (body : JsObj)
    (uid : UserId) (fresh : TaskId) :
    objGet (newTaskFields body uid) "owner" = some (JsValue.num uid) ∧
    (taskFromFields (newTaskFields body uid) fresh).owner = uid ∧
    (createTaskRoute tasks body uid fresh).1.owner = uid := by
  refine ⟨objGet_append_last body "owner" (JsValue.num uid), ?_, ?_⟩
  · simp [taskFromFields, newTaskFields, objGet_append_last]
  · simp [createTaskRoute, taskFromFields, newTaskFields, objGet_append_last]

/-- C1 (the code, at the failing input): with Ann stored under a hash of
"secret123", a login with Ann's email and the wrong password still
succeeds — the comparison is false, yet findByCredentials returns Ann
and the login route issues a fresh token. -/
theorem login_wrong_password_still_issues_token :
    bcryptCompare "wrongpass" annHashed.password = false ∧
    findByCredentials [annHashed] "ann@x.com" "wrongpass" =
      Except.ok annHashed ∧
    loginRoute annDb "ann@x.com" "wrongpass" "topsecret" 7 =
      Except.ok { user := annHashed
                  token := { sub := 1, iat := 7, sig := "topsecret" } } := by
  refine ⟨rfl, rfl, rfl⟩

/-- C5 (the code, at the failing input): signup answers 201 and mints a
token, but the stored record's tokens list stays empty — the minted
token is not recorded; and a subsequent login returns the stored record
(still with no token) and performs no write at all. -/
theorem signup_login_never_record_session :
    (signupRoute emptyDb annBody 1 5 "topsecret" 7).status = 201 ∧
    (signupRoute emptyDb annBody 1 5 "topsecret" 7).user.tokens = [] ∧
    (signupRoute emptyDb annBody 1 5 "topsecret" 7).token ∉
      (signupRoute emptyDb annBody 1 5 "topsecret" 7).user.tokens ∧
    (signupRoute emptyDb annBody 1 5 "topsecret" 7).db.users =
      [(signupRoute emptyDb annBody 1 5 "topsecret" 7).user] ∧
    loginRoute annDb "ann@x.com" "secret123" "topsecret" 7 =
      Except.ok { user := annHashed, token := jwtSign 1 "topsecret" 7 } ∧
    annHashed.tokens = [] := by
  refine ⟨rfl, rfl, by decide, rfl, rfl, rfl⟩

/-- C6: every signup stores a bcrypt-hashed password distinct from the
submitted plaintext, answers status 201, persists exactly that record,
and the external serialization of a user is independent of the password
and tokens fields (they are never serialized). -/
theorem signup_hashes_password_and_hides_secrets (db : Db)
    (body : SignupBody) (newId salt iat : Nat) (secret : String) :
    (signupRoute db body newId salt secret iat).status = 201 ∧
    (signupRoute db body newId salt secret iat).user.password =
      Password.hashed salt body.password ∧
    (signupRoute db body newId salt secret iat).user.password ≠
      Password.plain body.password ∧
    (signupRoute db body newId salt secret iat).db.users =
      db.users ++ [(signupRoute db body newId salt secret iat).user] ∧
    (∀ (pw : Password) (tks : List Token) (u : User),
      toJSON { u with password := pw, tokens := tks } = toJSON u) := by
  refine ⟨rfl, rfl, by simp [signupRoute, presave, bcryptHash], rfl, ?_⟩
  intro pw tks u
  rfl

/-- The Authenticator only identifies a request when the presented token
is in the resolved user's active list. -/
theorem authenticate_identified_mem (us : List User) (cr : Option Token)
    (sec : String) (u : User) (t : Token)
    (h : authenticate us cr sec = AuthResult.identified u t) :
    t ∈ u.tokens := by
  unfold authenticate at h
  cases cr with
  | none => simp at h
  | some tok =>
    cases hv : jwtVerify tok sec with
    | none => simp [hv] at h
    | some uid =>
      simp only [hv] at h
      cases hf : findById us uid with
      | none => simp [hf] at h
      | some usr =>
        simp only [hf] at h
        by_cases hm : tok ∈ usr.tokens
        · rw [if_pos hm] at h
          injection h with h1 h2
          subst h1
          subst h2
          exact hm
        · rw [if_neg hm] at h
          simp at h

/-- C2: once the session is revoked, the exact token that the
TokenIssuer still accepts (its signature verifies and yields the subject)
is rejected by the Authenticator, because it is no longer in the resolved
user's active list; and in general the Authenticator never reaches the
Identified state with a token absent from the resolved user's active
list. -/
theorem revoked_token_rejected (users : List User) (secret : String)
    (u : User) (t : Token) (hsig : t.sig = secret)
    (hcount : u.tokens.count t ≤ 1)
    (hfind : findById users t.sub = some (revokeSession u t)) :
    jwtVerify t secret = some t.sub ∧
    authenticate users (some t) secret = AuthResult.rejected ∧
    (∀ (us : List User) (cr : Option Token) (sec : String) (u2 : User)
        (t2 : Token),
      authenticate us cr sec = AuthResult.identified u2 t2 →
        t2 ∈ u2.tokens) := by
  have hjv : jwtVerify t secret = some t.sub := by simp [jwtVerify, hsig]
  have hnot : t ∉ (revokeSession u t).tokens := by
    have h1 := List.count_erase_self t u.tokens
    have h2 : (u.tokens.erase t).count t = 0 := by omega
    exact List.count_eq_zero.mp h2
  refine ⟨hjv, ?_, ?_⟩
  · simp only [authenticate, hjv, hfind]
    rw [if_neg hnot]
  · intro us cr sec u2 t2 h
    exact authenticate_identified_mem us cr sec u2 t2 h

/-- Witness for C2: Ann's record after revoking demoToken; the request
bearing demoToken is rejected. -/
theorem revoked_token_rejected_witness :
    authenticate [revokeSession annLoggedIn demoToken] (some demoToken)
      "topsecret" = AuthResult.rejected :=
  (revoked_token_rejected [revokeSession annLoggedIn demoToken] "topsecret"
    annLoggedIn demoToken rfl (by decide) rfl).2.1

/-- C4: a task owned by u1, requested by an authenticated u2 ≠ u1 by id,
answers NotFound for GET, PATCH and DELETE, mutates nothing, and the
response is the same as for an id that matches no task at all. -/
theorem cross_user_task_access_not_found (tasks : List Task)
    (u1 u2 : UserId) (T : Task) (upd : TaskUpdate) (hne : u1 ≠ u2)
    (hown : T.owner = u1) (_hmem : T ∈ tasks)
    (huniq : ∀ t ∈ tasks, t.id = T.id → t = T) :
    getTaskRoute tasks T.id u2 = Response.notFound ∧
    patchTaskRoute tasks T.id u2 upd = (Response.notFound, tasks) ∧
    deleteTaskRoute tasks T.id u2 = (Response.notFound, tasks) ∧
    (∀ tid2 : TaskId, (∀ t ∈ tasks, t.id ≠ tid2) →
      getTaskRoute tasks T.id u2 = getTaskRoute tasks tid2 u2) := by
  have hnone : findTaskScoped tasks T.id u2 = none := by
    apply findTaskScoped_eq_none
    intro t ht hid
    rw [huniq t ht hid, hown]
    exact hne
  refine ⟨?_, ?_, ?_, ?_⟩
  · simp [getTaskRoute, hnone]
  · simp [patchTaskRoute, hnone]
  · simp [deleteTaskRoute, hnone]
  · intro tid2 h2
    have hnone2 : findTaskScoped tasks tid2 u2 = none := by
      apply findTaskScoped_eq_none
      intro t ht hid
      exact absurd hid (h2 t ht)
    simp [getTaskRoute, hnone, hnone2]

/-- Witness for C4: Ann's task (owner 1) requested by user 2. -/
theorem cross_user_task_access_not_found_witness :
    getTaskRoute [demoTask] demoTask.id 2 = Response.notFound :=
  (cross_user_task_access_not_found [demoTask] 1 2 demoTask
    { description := none, completed := some true }
    (by decide) rfl (by decide) (by decide)).1

/-- C7: the listing returns only tasks owned by the identified user,
tasks of other owners never appear whatever the query parameter, and
when the user owns nothing the listing is empty. -/
theorem listing_owner_scoped (tasks : List Task) (uid : UserId)
    (q : Option String) :
    (∀ t ∈ listTasks tasks uid q, t.owner = uid) ∧
    (∀ t ∈ tasks, t.owner ≠ uid → t ∉ listTasks tasks uid q) ∧
    ((∀ t ∈ tasks, t.owner ≠ uid) → listTasks tasks uid q = []) := by
  refine ⟨?_, ?_, ?_⟩
  · intro t ht
    have hp := (List.mem_filter.mp ht).2
    simp only [Bool.and_eq_true, beq_iff_eq] at hp
    exact hp.1
  · intro t _ hne hmem
    have hp := (List.mem_filter.mp hmem).2
    simp only [Bool.and_eq_true, beq_iff_eq] at hp
    exact hne hp.1
  · intro hall
    apply List.filter_eq_nil_iff.mpr
    intro t ht
    simp only [Bool.and_eq_true, beq_iff_eq]
    intro hab
    exact hall t ht hab.1

/-- Witness for C7: Bob (id 2) lists tasks while only Ann's task is
stored; the listing is empty. -/
theorem listing_owner_scoped_witness :
    listTasks [demoTask] 2 none = [] :=
  (listing_owner_scoped [demoTask] 2 none).2.2 (by decide)

/-- C8: a Task request whose authentication is rejected answers
unauthorized and leaves the whole database state exactly as it was, for
every kind of Task request. -/
theorem unauthenticated_task_request_untouched (st : Db)
    (cred : Option Token) (secret : String) (fresh : TaskId) (req : TaskReq)
    (h : authenticate st.users cred secret = AuthResult.rejected) :
    handleTaskRequest st cred secret fresh req =
      (Response.unauthorized, st) := by
  simp only [handleTaskRequest, h]

/-- Witness for C8: a create request with no credential against Ann's
database answers unauthorized and changes nothing. -/
theorem unauthenticated_task_request_untouched_witness :
    handleTaskRequest annDb none "topsecret" 0
      (TaskReq.create [("description", JsValue.str "Learn Express")]) =
      (Response.unauthorized, annDb) :=
  unauthenticated_task_request_untouched annDb none "topsecret" 0
    (TaskReq.create [("description", JsValue.str "Learn Express")]) rfl

/-- C9: when no stored user has the submitted email, findByCredentials
throws (the null query result's password field is dereferenced) instead
of returning a uniform no-match value, and the login route propagates
that exception rather than returning normally. -/
theorem unknown_email_login_raises (db : Db) (email pw secret : String)
    (iat : Nat) (h : ∀ u ∈ db.users, u.email ≠ email) :
    findByCredentials db.users email pw = Except.error JsError.typeError ∧
    loginRoute db email pw secret iat = Except.error JsError.typeError := by
  have hfind : findOneByEmail db.users email = none := by
    apply List.find?_eq_none.mpr
    intro u hu
    simp only [beq_iff_eq]
    exact h u hu
  constructor
  · simp [findByCredentials, hfind]
  · simp [loginRoute, findByCredentials, hfind]

/-- Witness for C9: a login for an email absent from Ann's database. -/
theorem unknown_email_login_raises_witness :
    findByCredentials annDb.users "bob@x.com" "whatever" =
      Except.error JsError.typeError :=
  (unknown_email_login_raises annDb "bob@x.com" "whatever" "topsecret" 0
    (by decide)).1

end TaskManager
